import Mathlib

/-!
HiveHyde-Anti: a shallow embedding of the signing pipeline, with proofs.

This file embeds the client-side anti-automation library (risk scoring,
canonical parameter serialization, fingerprint JSON, signing-record
composition, the session vault's silent-refresh state machine, and the
mouse-trajectory tracker) as executable Lean definitions, and proves the
specified properties about them.

Modelling conventions:
* JavaScript numbers are modelled as rationals (`ℚ`) in the risk scorer and
  trajectory analyzer, and as integers (`ℤ`) inside JSON parameter values
  (every numeric parameter appearing in the properties is integral).
* JavaScript objects are association lists with unique keys, in insertion
  order.
* Absent (`undefined`) fields are `Option.none`.
* Effects (`Date.now()`, `Math.random()`, `fetch`) are passed in as explicit
  arguments; the surrounding control flow is translated unchanged.
-/

/-- A JavaScript value, as used for request parameters and JSON bodies. -/
inductive JVal where
  | jNull : JVal
  | jBool : Bool → JVal
  | jNum : ℤ → JVal
  | jStr : String → JVal
  | jArr : List JVal → JVal
  | jObj : List (String × JVal) → JVal

/-- Join a list of strings with commas, as `Array.prototype.join(',')`. -/
def joinComma : List String → String
  | [] => ""
  | [x] => x
  | x :: xs => x ++ "," ++ joinComma xs

/-- Join a list of strings with `&`, as `Array.prototype.join('&')`. -/
def joinAmp : List String → String
  | [] => ""
  | [x] => x
  | x :: xs => x ++ "&" ++ joinAmp xs

/-- Join a list of strings with the literal delimiter `||`,
as `Array.prototype.join('||')` in `assessAndSign`. -/
def joinPipes : List String → String
  | [] => ""
  | [x] => x
  | x :: xs => x ++ "||" ++ joinPipes xs

/-- Uppercase hexadecimal digit for `n < 16`. -/
def hexDigitUpper (n : ℕ) : Char :=
  if n < 10 then Char.ofNat (48 + n) else Char.ofNat (55 + n)

/-- Lowercase hexadecimal digit for `n < 16`. -/
def hexDigitLower (n : ℕ) : Char :=
  if n < 10 then Char.ofNat (48 + n) else Char.ofNat (87 + n)

/-- JSON escape of one character, per `JSON.stringify` string semantics. -/
def jsonEscapeChar (c : Char) : String :=
  let n := c.toNat
  if n = 34 then "\\\""
  else if n = 92 then "\\\\"
  else if n = 8 then "\\b"
  else if n = 9 then "\\t"
  else if n = 10 then "\\n"
  else if n = 12 then "\\f"
  else if n = 13 then "\\r"
  else if n < 32 then
    "\\u00" ++ String.mk [hexDigitLower (n / 16), hexDigitLower (n % 16)]
  else String.singleton c

/-- `JSON.stringify` of a string: quoted and escaped. -/
def jsonQuote (s : String) : String :=
  "\"" ++ String.join (s.data.map jsonEscapeChar) ++ "\""

mutual

/-- `JSON.stringify`, restricted to the modelled value domain: members are
emitted in insertion order. -/
def jsonStringify : JVal → String
  | .jNull => "null"
  | .jBool b => if b then "true" else "false"
  | .jNum n => toString n
  | .jStr s => jsonQuote s
  | .jArr xs => "[" ++ jsonStringifyElems xs ++ "]"
  | .jObj fs => "\x7b" ++ jsonStringifyMembers fs ++ "\x7d"

/-- Array elements of `JSON.stringify`, comma-joined. -/
def jsonStringifyElems : List JVal → String
  | [] => ""
  | [x] => jsonStringify x
  | x :: xs => jsonStringify x ++ "," ++ jsonStringifyElems xs

/-- Object members of `JSON.stringify`, comma-joined, insertion order. -/
def jsonStringifyMembers : List (String × JVal) → String
  | [] => ""
  | [kv] => jsonQuote kv.1 ++ ":" ++ jsonStringify kv.2
  | kv :: fs => jsonQuote kv.1 ++ ":" ++ jsonStringify kv.2 ++ "," ++ jsonStringifyMembers fs

end

/-- Lexicographic code-unit comparison of character lists (the order JS
string comparison uses; the modelled keys are ASCII, where UTF-16 code
units and code points agree). -/
def charListLe : List Char → List Char → Bool
  | [], _ => true
  | _ :: _, [] => false
  | a :: as, b :: bs =>
    if a.toNat < b.toNat then true
    else if b.toNat < a.toNat then false
    else charListLe as bs

/-- JS string order `a <= b`. -/
def jsStrLe (a b : String) : Bool := charListLe a.data b.data

/-- Insert a key-value pair into a list sorted by key. -/
def insertByKey {α : Type} (kv : String × α) : List (String × α) → List (String × α)
  | [] => [kv]
  | x :: xs => if jsStrLe kv.1 x.1 then kv :: x :: xs else x :: insertByKey kv xs

/-- Key order used by `Object.keys(obj).sort()`: lexicographic string order.
The sort algorithm itself is unobservable for the unique keys of an object;
insertion sort keeps the definition kernel-reducible. -/
def sortByKey {α : Type} (fs : List (String × α)) : List (String × α) :=
  match fs with
  | [] => []
  | x :: xs => insertByKey x (sortByKey xs)

mutual

/-- `_canonicalJsonStringify` from the Risk Matrix source: primitives via
`JSON.stringify`, arrays element-wise in order, objects with keys sorted.
The source sorts the (unique) keys and then serializes each looked-up value;
since each member's serialization is independent of member order, this is
embedded as serializing every member and sorting the members by key. -/
def canonicalJsonStringify : JVal → String
  | .jNull => "null"
  | .jBool b => if b then "true" else "false"
  | .jNum n => toString n
  | .jStr s => jsonQuote s
  | .jArr xs => "[" ++ canonicalJsonElems xs ++ "]"
  | .jObj fs => "\x7b" ++
      joinComma ((sortByKey (canonicalJsonMembers fs)).map fun kv =>
        jsonQuote kv.1 ++ ":" ++ kv.2) ++ "\x7d"

/-- Array elements of `_canonicalJsonStringify`, comma-joined. -/
def canonicalJsonElems : List JVal → String
  | [] => ""
  | [x] => canonicalJsonStringify x
  | x :: xs => canonicalJsonStringify x ++ "," ++ canonicalJsonElems xs

/-- Object members of `_canonicalJsonStringify`, each value serialized
canonically, before key sorting. -/
def canonicalJsonMembers : List (String × JVal) → List (String × String)
  | [] => []
  | kv :: fs => (kv.1, canonicalJsonStringify kv.2) :: canonicalJsonMembers fs

end

mutual

/-- JavaScript `String(value)` coercion, restricted to the modelled domain
(used by the template literal inside `_serializeGetParams`). -/
def jsToString : JVal → String
  | .jNull => "null"
  | .jBool b => if b then "true" else "false"
  | .jNum n => toString n
  | .jStr s => s
  | .jArr xs => jsArrToString xs
  | .jObj _ => "[object Object]"

/-- `Array.prototype.toString`: elements comma-joined, `null` as empty. -/
def jsArrToString : List JVal → String
  | [] => ""
  | [x] => match x with | .jNull => "" | v => jsToString v
  | x :: xs => (match x with | .jNull => "" | v => jsToString v) ++ "," ++ jsArrToString xs

end

/-- Characters `encodeURIComponent` leaves unescaped:
`A-Z a-z 0-9 - _ . ! ~ * ' ( )`. -/
def isUnescapedURIChar (c : Char) : Bool :=
  let n := c.toNat
  (65 ≤ n && n ≤ 90) || (97 ≤ n && n ≤ 122) || (48 ≤ n && n ≤ 57)
    || [45, 95, 46, 33, 126, 42, 39, 40, 41].contains n

/-- UTF-8 byte sequence of one character. -/
def utf8BytesOfChar (c : Char) : List ℕ :=
  let n := c.toNat
  if n < 128 then [n]
  else if n < 2048 then [192 + n / 64, 128 + n % 64]
  else if n < 65536 then [224 + n / 4096, 128 + (n / 64) % 64, 128 + n % 64]
  else [240 + n / 262144, 128 + (n / 4096) % 64, 128 + (n / 64) % 64, 128 + n % 64]

/-- `%XX` percent-escape of one byte, uppercase hex. -/
def percentByte (b : ℕ) : String :=
  String.mk [Char.ofNat 37, hexDigitUpper (b / 16), hexDigitUpper (b % 16)]

/-- `encodeURIComponent`: unescaped characters verbatim, everything else
percent-encoded byte-wise over its UTF-8 encoding. -/
def encodeURIComponent (s : String) : String :=
  String.join (s.data.map fun c =>
    if isUnescapedURIChar c then String.singleton c
    else String.join ((utf8BytesOfChar c).map percentByte))

/-- `_serializeGetParams`: empty/absent/non-object params give `""`;
otherwise keys are sorted, each pair is URL-encoded as `k=v`, joined by `&`.
Params are modelled as an optional object (association list). -/
def serializeGetParams (params : Option (List (String × JVal))) : String :=
  match params with
  | none => ""
  | some fs =>
    if fs.length = 0 then ""
    else joinAmp ((sortByKey fs).map fun kv =>
      encodeURIComponent kv.1 ++ "=" ++ encodeURIComponent (jsToString kv.2))

/-! ## Collected data model (Data Loom / Anomaly Scanner result bag) -/

/-- Successful WebGL probe result. -/
structure WebGLInfo where
  vendor : String
  renderer : String

/-- Successful platform probe result. -/
structure PlatformInfo where
  platform : String
  plugins : String
  touchPoints : ℚ
  clickCount : ℚ

/-- Successful screen probe result. -/
structure ScreenInfo where
  screen : String
  language : String

/-- Successful performance probe result. -/
structure PerfInfo where
  type : String
  transferSize : ℚ
  loadTime : ℚ

/-- Result of `_analyzeMouseTrajectory`. -/
structure Analysis where
  regularity_score : ℚ
  is_straight_line : Bool
deriving DecidableEq

/-- Result of the trajectory probe: `{points, analysis}`. -/
structure TrajectoryData where
  points : List (ℚ × ℚ × ℚ)
  analysis : Analysis

/-- Result bag of `AnomalyScan.run`. `stack_anomaly` is `false` or one of
the strings `no_stack`, `contains_keyword`, `stack_too_short`; modelled as
an optional string (`none` = `false`). `permissions_error` is only present
when the permissions probe returned a string instead of a boolean. -/
structure AnomalyData where
  webdriver : Bool
  webdriver_tampered : Bool
  headless_chrome : Bool
  tostring_tampered : Bool
  stack_anomaly : Option String
  permissions_denied : Bool
  permissions_error : Option String := none

/-- The bag of collected probe results handed to the Risk Matrix. Each probe
either succeeded (right summand) or returned its sentinel error string (left
summand); a probe missing from the policy is `none`. -/
structure CollectedData where
  canvas : Option String := none
  webgl : Option (String ⊕ WebGLInfo) := none
  audio : Option String := none
  platform : Option (String ⊕ PlatformInfo) := none
  screen : Option (String ⊕ ScreenInfo) := none
  performance : Option (String ⊕ PerfInfo) := none
  mouse_trajectory : Option TrajectoryData := none
  anomaly_scan : Option AnomalyData := none

/-- The weight map fields read by `_calculateRiskScore`. -/
structure Weights where
  anomaly_scan : Option ℚ := none
  mouse_trajectory : Option ℚ := none

/-- JavaScript `x || d` on an optional number: `undefined` and `0` are
falsy. -/
def jsNumOr (o : Option ℚ) (d : ℚ) : ℚ :=
  match o with
  | some q => if q = 0 then d else q
  | none => d

/-! ## Risk scorer (`_calculateRiskScore`) -/

/-- `collectedData.anomaly_scan || {}`, then `.webdriver` (falsy default). -/
def anomalyWebdriver (d : CollectedData) : Bool :=
  match d.anomaly_scan with
  | some a => a.webdriver
  | none => false

/-- `.webdriver_tampered` of the anomaly bag, falsy default. -/
def anomalyWebdriverTampered (d : CollectedData) : Bool :=
  match d.anomaly_scan with
  | some a => a.webdriver_tampered
  | none => false

/-- `.tostring_tampered` of the anomaly bag, falsy default. -/
def anomalyToStringTampered (d : CollectedData) : Bool :=
  match d.anomaly_scan with
  | some a => a.tostring_tampered
  | none => false

/-- Truthiness of `.stack_anomaly`: a non-empty string. -/
def anomalyStackTruthy (d : CollectedData) : Bool :=
  match d.anomaly_scan with
  | some a => match a.stack_anomaly with
    | some s => s ≠ ""
    | none => false
  | none => false

/-- `.permissions_denied` of the anomaly bag, falsy default. -/
def anomalyPermissionsDenied (d : CollectedData) : Bool :=
  match d.anomaly_scan with
  | some a => a.permissions_denied
  | none => false

/-- `collectedData.mouse_trajectory || { points: [], analysis: {} }`:
the points list. -/
def trajectoryPoints (d : CollectedData) : List (ℚ × ℚ × ℚ) :=
  match d.mouse_trajectory with
  | some t => t.points
  | none => []

/-- The trajectory analysis; on the `{}` default, both reads
(`is_straight_line` truthiness, `regularity_score > 0.5`) behave like
`⟨0, false⟩`. -/
def trajectoryAnalysis (d : CollectedData) : Analysis :=
  match d.mouse_trajectory with
  | some t => t.analysis
  | none => ⟨0, false⟩

/-- `platformData.touchPoints > 0` where `platformData` is
`collectedData.platform || {}`; on a sentinel string or `{}` the field read
is `undefined` and the comparison is false. -/
def isTouchDevice (d : CollectedData) : Bool :=
  match d.platform with
  | some (Sum.inr p) => decide (p.touchPoints > 0)
  | _ => false

/-- `platformData.clickCount || 0`. -/
def clickCountQ (d : CollectedData) : ℚ :=
  match d.platform with
  | some (Sum.inr p) => p.clickCount
  | _ => 0

/-- `perfData && perfData.transferSize === 0 && perfData.type === 'navigate'`;
false on a sentinel string (field reads give `undefined`). -/
def perfCacheBonus (d : CollectedData) : Bool :=
  match d.performance with
  | some (Sum.inr p) => decide (p.transferSize = 0 ∧ p.type = "navigate")
  | _ => false

/-- The `fingerprintErrors` list exactly as written in
`_calculateRiskScore`. -/
def fingerprintErrors : List String :=
  ["err_canvas", "err_no_webgl", "err_webgl", "err_no_offline_context",
   "err_audio_render", "err_audio_context", "err_platform", "err_screen",
   "err_no_perf", "err_no_perf_api", "err_no_timing"]

/-- The sentinel error strings the probe fabric can actually return, read
off the probes' `catch`/fallback branches in the Data Loom source. -/
def probeFabricSentinels : List String :=
  ["err_canvas", "err_no_webgl", "err_webgl", "err_no_offline_context",
   "err_audio_render", "err_audio_context", "err_platform", "err_screen",
   "err_no_perf_api", "err_no_timing", "err_perf"]

/-- The top-level values of the bag that are strings, in field order
(`for (const key in collectedData)` visits own enumerable keys; objects
never compare equal to the sentinel strings, so only string values
matter for `fingerprintErrors.includes`). -/
def topLevelStringValues (d : CollectedData) : List String :=
  (match d.canvas with | some s => [s] | none => []) ++
  (match d.webgl with | some (Sum.inl s) => [s] | _ => []) ++
  (match d.audio with | some s => [s] | none => []) ++
  (match d.platform with | some (Sum.inl s) => [s] | _ => []) ++
  (match d.screen with | some (Sum.inl s) => [s] | _ => []) ++
  (match d.performance with | some (Sum.inl s) => [s] | _ => [])

/-- The scorer's fingerprint error count. -/
def errorCount (d : CollectedData) : ℕ :=
  (topLevelStringValues d).countP (fun v => fingerprintErrors.contains v)

/-- The raw (pre-round, pre-clamp) risk score accumulated by
`_calculateRiskScore`, one summand per `score +=`/`score -=` site. -/
def scoreRaw (d : CollectedData) (w : Weights) : ℚ :=
  let anomalyWeight := jsNumOr w.anomaly_scan 50
  let trajectoryWeight := jsNumOr w.mouse_trajectory 25
  let pts := trajectoryPoints d
  let analysis := trajectoryAnalysis d
  (if anomalyWebdriver d then anomalyWeight else 0)
  + (if anomalyWebdriverTampered d then anomalyWeight * 1.2 else 0)
  + (if anomalyToStringTampered d then anomalyWeight * 1.1 else 0)
  + (if anomalyStackTruthy d then anomalyWeight * 0.7 else 0)
  + (if anomalyPermissionsDenied d then 5 else 0)
  + (if pts.length = 0 then 3 else if pts.length < 5 then 2 else 0)
  + (if analysis.is_straight_line then
       trajectoryWeight * (if isTouchDevice d then 0.1 else 0.7)
     else if analysis.regularity_score > 0.5 then trajectoryWeight * 0.5 else 0)
  + (if clickCountQ d = 0 then 1
     else if clickCountQ d > 5 ∧ pts.length > 20 then -5 else 0)
  + (if perfCacheBonus d then -5 else 0)
  + (if errorCount d > 2 then 2 * (errorCount d : ℚ) else 0)

/-- `Math.round`: round half toward positive infinity. -/
def jsRound (q : ℚ) : ℤ := ⌊q + 1/2⌋

/-- `_calculateRiskScore`'s return value:
`Math.min(Math.round(Math.max(0, score)), 100)`. -/
def riskScore (d : CollectedData) (w : Weights) : ℤ :=
  min (jsRound (max 0 (scoreRaw d w))) 100

/-! ## Raw fingerprint JSON and the signing record (`assessAndSign`) -/

/-- `collectedData.platform ? collectedData.platform.platform : 'N/A'`:
an absent (falsy) result gives `'N/A'`; a sentinel string is truthy, its
`.platform` property read yields `undefined` (so `JSON.stringify` later
drops the member); an object gives its `.platform` field. -/
def fingerprintPlatformField (d : CollectedData) : Option String :=
  match d.platform with
  | none => some "N/A"
  | some (Sum.inl _) => none
  | some (Sum.inr p) => some p.platform

/-- `collectedData.webgl ? collectedData.webgl.renderer : 'N/A'`,
with the same truthiness behavior as the platform field. -/
def fingerprintRendererField (d : CollectedData) : Option String :=
  match d.webgl with
  | none => some "N/A"
  | some (Sum.inl _) => none
  | some (Sum.inr w) => some w.renderer

/-- `JSON.stringify` of an object literal whose member values are strings
or `undefined`: members with `undefined` values are omitted, the rest are
emitted in insertion order. -/
def jsonStringifyStrMembers (fs : List (String × Option String)) : String :=
  "\x7b" ++
    joinComma (fs.filterMap fun kv =>
      kv.2.map fun v => jsonQuote kv.1 ++ ":" ++ jsonQuote v) ++ "\x7d"

/-- The raw fingerprint JSON built by `assessAndSign`:
`JSON.stringify({platform: …, renderer: …, audio: collectedData.audio})`. -/
def rawFingerprintJson (d : CollectedData) : String :=
  jsonStringifyStrMembers
    [("platform", fingerprintPlatformField d),
     ("renderer", fingerprintRendererField d),
     ("audio", d.audio)]

/-- The methods serialized as JSON bodies in `assessAndSign`. -/
def bodyMethods : List String := ["POST", "PUT", "PATCH", "DELETE"]

/-- The `serializedParams` computation of `assessAndSign`: GET params via
`_serializeGetParams`; body methods as the literal `"{}"` when params are
absent or keyless, else `JSON.stringify(params)`; any other method keeps
the initial empty string. -/
def computeSerializedParams (httpMethod : String)
    (params : Option (List (String × JVal))) : String :=
  if httpMethod = "GET" then serializeGetParams params
  else if bodyMethods.contains httpMethod then
    match params with
    | none => "\x7b\x7d"
    | some fs => if fs.length = 0 then "\x7b\x7d" else jsonStringify (JVal.jObj fs)
  else ""

/-- The data computed by one `assessAndSign` call. The HMAC signature and
AES envelope are external crypto-library calls over `dataToSign` and
`rawFingerprintJson` and are outside the model. -/
structure SignaturePackage where
  riskScore : ℤ
  timestamp : ℕ
  nonce : String
  httpMethod : String
  serializedParams : String
  rawFingerprintJson : String
  dataToSign : String
  token : Option String

/-- `method.toUpperCase()`, on the ASCII domain of HTTP method names. -/
def jsToUpperCase (s : String) : String := String.mk (s.data.map Char.toUpper)

/-- The pure core of `assessAndSign` once a session key was obtained:
`Date.now()` and the 8 random base-36 characters of the nonce are explicit
inputs, as is the vault's current token. -/
def assessAndSignCore (d : CollectedData) (w : Weights) (realUrl : String)
    (params : Option (List (String × JVal))) (method : String)
    (timestamp : ℕ) (nonceSuffix : String) (token : Option String) :
    SignaturePackage :=
  let rs := riskScore d w
  let nonce := toString timestamp ++ "-" ++ nonceSuffix
  let httpMethod := jsToUpperCase method
  let sp := computeSerializedParams httpMethod params
  let fp := rawFingerprintJson d
  { riskScore := rs
    timestamp := timestamp
    nonce := nonce
    httpMethod := httpMethod
    serializedParams := sp
    rawFingerprintJson := fp
    dataToSign := joinPipes
      [toString timestamp, nonce, httpMethod, realUrl, sp, toString rs, fp]
    token := token }

/-- `assessAndSign`: throws (`none`) when the session key is null,
otherwise returns the package of the pure core. -/
def assessAndSign (sessionKey : Option String) (d : CollectedData)
    (w : Weights) (realUrl : String) (params : Option (List (String × JVal)))
    (method : String) (timestamp : ℕ) (nonceSuffix : String)
    (token : Option String) : Option SignaturePackage :=
  match sessionKey with
  | none => none
  | some _ => some (assessAndSignCore d w realUrl params method timestamp nonceSuffix token)

/-! ## Mouse trajectory analysis (`_analyzeMouseTrajectory`) -/

/-- Inter-sample time intervals:
`trajectory.slice(1).map((p, i) => p[2] - trajectory[i][2])`. -/
def intervalsOf (traj : List (ℚ × ℚ × ℚ)) : List ℚ :=
  List.zipWith (fun p q => p.2.2 - q.2.2) traj.tail traj

/-- Population variance of the intervals (mean of squared deviations from
the mean). The source compares `Math.sqrt(variance) < 10`; the embedding
compares `variance < 100`, equivalent by `sqrt_lt_ten_iff_lt_hundred`. -/
def intervalVariance (traj : List (ℚ × ℚ × ℚ)) : ℚ :=
  let ivs := intervalsOf traj
  let avg := ivs.sum / ivs.length
  ((ivs.map fun x => (x - avg) ^ 2).sum) / ivs.length

/-- The slope-consistency loop: state is the last seen slope (`none` before
any non-stationary segment; `some none` is a vertical segment's `Infinity`).
A pair is counted when both slopes are finite and differ by less than 0.1
(any comparison involving `Infinity` or `NaN` is false in JS). -/
def slopeLoop : Option (Option ℚ) → List ((ℚ × ℚ × ℚ) × (ℚ × ℚ × ℚ)) → ℕ
  | _, [] => 0
  | last, (p, q) :: rest =>
    let dx := q.1 - p.1
    let dy := q.2.1 - p.2.1
    if dx = 0 ∧ dy = 0 then slopeLoop last rest
    else
      let slope : Option ℚ := if dx = 0 then none else some (dy / dx)
      let inc : ℕ :=
        match last, slope with
        | some (some a), some b => if |b - a| < 1/10 then 1 else 0
        | _, _ => 0
      inc + slopeLoop (some slope) rest

/-- `consistentSlopes` after the loop over segments `i = 1 .. n-1`. -/
def consistentSlopesCount (traj : List (ℚ × ℚ × ℚ)) : ℕ :=
  slopeLoop none (traj.zip traj.tail)

/-- The straight-line criterion:
`consistentSlopes / (trajectory.length - 1) > 0.8`. -/
def straightLineCond (traj : List (ℚ × ℚ × ℚ)) : Bool :=
  decide ((consistentSlopesCount traj : ℚ) / ((traj.length : ℚ) - 1) > 0.8)

/-- `_analyzeMouseTrajectory`: fewer than 10 points yields the zero
analysis; otherwise 0.8 for a regular interval pattern (σ < 10), 1.0 and
the straight-line flag for consistent slopes, score clamped to at most 1. -/
def analyzeMouseTrajectory (traj : List (ℚ × ℚ × ℚ)) : Analysis :=
  if traj.length < 10 then ⟨0, false⟩
  else
    let tScore : ℚ := if intervalVariance traj < 100 then 0.8 else 0
    let straight := straightLineCond traj
    let score := tScore + (if straight then 1 else 0)
    { regularity_score := min score 1, is_straight_line := straight }

/-! ## Mouse listener state machine (`startListeners`, `_getMouseTrajectory`) -/

/-- `lastMousePosition = { x, y, t, c }`. -/
structure MousePos where
  x : ℚ
  y : ℚ
  t : ℚ
  c : ℕ
deriving DecidableEq

/-- The module state: last position/click record plus the trajectory
buffer. -/
structure MouseState where
  last : MousePos
  traj : List (ℚ × ℚ × ℚ)
deriving DecidableEq

/-- Module-load state: `{x: 0, y: 0, t: 0, c: 0}`, empty buffer. -/
def initialMouseState : MouseState := ⟨⟨0, 0, 0, 0⟩, []⟩

/-- The `mousemove` handler: when strictly more than 100 ms have passed
since the last gate-passing move, record the position (keeping the click
count) and, when the buffer holds fewer than 50 samples, append the new
sample. -/
def handleMouseMove (s : MouseState) (cx cy now : ℚ) : MouseState :=
  if now - s.last.t > 100 then
    { last := ⟨cx, cy, now, s.last.c⟩
      traj := if s.traj.length < 50 then s.traj ++ [(cx, cy, now)] else s.traj }
  else s

/-- The `click` handler: `lastMousePosition.c++`. -/
def handleClick (s : MouseState) : MouseState :=
  { s with last := { s.last with c := s.last.c + 1 } }

/-- `_getMouseTrajectory`: snapshot the buffer, clear it, return the points
with their analysis. -/
def getMouseTrajectory (s : MouseState) : TrajectoryData × MouseState :=
  ({ points := s.traj, analysis := analyzeMouseTrajectory s.traj },
   { s with traj := [] })

/-- The events that mutate the mouse-tracking state. -/
inductive MouseEvent where
  | move (cx cy now : ℚ)
  | click
  | probe

/-- One event step of the mouse-tracking system. -/
def mouseStep (s : MouseState) : MouseEvent → MouseState
  | .move cx cy now => handleMouseMove s cx cy now
  | .click => handleClick s
  | .probe => (getMouseTrajectory s).2

/-- Run an event sequence from the module-load state. -/
def runMouseEvents (es : List MouseEvent) : MouseState :=
  es.foldl mouseStep initialMouseState

/-! ## Session vault (`SessionVault`) -/

/-- The vault's module state. -/
structure VaultState where
  sessionKey : Option String
  sessionToken : Option String
  expiresAt : ℤ
  isRefreshing : Bool
deriving DecidableEq

/-- Key lifetime: 30 minutes in milliseconds. -/
def KEY_LIFESPAN_MS : ℤ := 30 * 60 * 1000

/-- Early-refresh buffer: 2 minutes in milliseconds. -/
def REFRESH_BUFFER_MS : ℤ := 2 * 60 * 1000

/-- Outcome of one `fetch` of `/warden/init`: a network/parse rejection, or
a response with its `ok` flag, status, and JSON body (`none` when
`response.json()` rejects). -/
inductive FetchOutcome where
  | netErr
  | httpResp (ok : Bool) (status : ℕ) (body : Option JVal)

/-- JavaScript property read on a modelled value: `undefined` off
non-objects and missing keys. -/
def jsGetMember (v : JVal) (k : String) : Option JVal :=
  match v with
  | .jObj fs => (fs.find? fun kv => kv.1 == k).map (fun kv => kv.2)
  | _ => none

/-- JavaScript truthiness on the modelled value domain. -/
def jsTruthy : JVal → Bool
  | .jNull => false
  | .jBool b => b
  | .jNum n => decide (n ≠ 0)
  | .jStr s => decide (s ≠ "")
  | .jArr _ => true
  | .jObj _ => true

/-- The strict envelope validation of `_fetchNewSession`:
`responseData.code !== 0 || !responseData.data ||
typeof responseData.data.key !== 'string' ||
typeof responseData.data.token !== 'string'` fails the call; otherwise the
key and token strings are returned. -/
def validateSessionEnvelope (body : JVal) : Option (String × String) :=
  let codeOk : Bool :=
    match jsGetMember body "code" with
    | some (.jNum n) => decide (n = 0)
    | _ => false
  if codeOk = false then none
  else
    match jsGetMember body "data" with
    | none => none
    | some dv =>
      if jsTruthy dv = false then none
      else
        match jsGetMember dv "key", jsGetMember dv "token" with
        | some (.jStr k), some (.jStr t) => some (k, t)
        | _, _ => none

/-- The catch branch of `_fetchNewSession`: clear all session state. -/
def clearSession (s : VaultState) : VaultState :=
  { s with sessionKey := none, sessionToken := none, expiresAt := 0 }

/-- `_fetchNewSession` as a state transformer: the fetch outcome and
`Date.now()` are inputs; the boolean is whether the function threw
(rethrown after clearing state). -/
def fetchNewSession (s : VaultState) (outcome : FetchOutcome) (now : ℤ) :
    VaultState × Bool :=
  match outcome with
  | .netErr => (clearSession s, true)
  | .httpResp ok _ body =>
    if ok = false then (clearSession s, true)
    else
      match body with
      | none => (clearSession s, true)
      | some b =>
        match validateSessionEnvelope b with
        | none => (clearSession s, true)
        | some kt =>
          ({ s with sessionKey := some kt.1, sessionToken := some kt.2,
                    expiresAt := now + KEY_LIFESPAN_MS }, false)

/-- `_checkAndRefreshToken`: return unchanged when there is no key, the key
is not yet inside the refresh window, or a refresh is in flight; otherwise
lock, fetch (swallowing any throw), and unlock in `finally`. -/
def checkAndRefreshToken (s : VaultState) (outcome : FetchOutcome) (now : ℤ) :
    VaultState :=
  if s.sessionKey = none ∨ now < s.expiresAt - REFRESH_BUFFER_MS ∨
      s.isRefreshing = true then s
  else
    let locked := { s with isRefreshing := true }
    let fetched := (fetchNewSession locked outcome now).1
    { fetched with isRefreshing := false }

/-- `getCurrentKey`: run the refresh check, then return the (possibly
updated) session key. Never throws. -/
def getCurrentKey (s : VaultState) (outcome : FetchOutcome) (now : ℤ) :
    Option String × VaultState :=
  let s2 := checkAndRefreshToken s outcome now
  (s2.sessionKey, s2)

/-- `getCurrentToken`: the cached token, no I/O. -/
def getCurrentToken (s : VaultState) : Option String :=
  s.sessionToken

/-! ## Interleaving model of concurrent `getCurrentKey` calls

JavaScript is single-threaded with run-to-completion: the synchronous
prefix of `_checkAndRefreshToken` — guard check, `isRefreshing = true`, and
starting the fetch — executes atomically, and the continuation after
`await _fetchNewSession()` (catch plus `finally { isRefreshing = false }`)
is a second atomic step. `inFlight` counts fetches started and not yet
settled. -/

/-- Vault state plus the number of in-flight refresh fetches. -/
structure RefreshSystem where
  vault : VaultState
  inFlight : ℕ
deriving DecidableEq

/-- The atomic prefix of a refresh-initiating `getCurrentKey` call: lock
and start a fetch. -/
def enterRefresh (r : RefreshSystem) : RefreshSystem :=
  { vault := { r.vault with isRefreshing := true }, inFlight := r.inFlight + 1 }

/-- The atomic continuation after the awaited fetch settles: apply the
fetch's state effect, swallow any throw, and unlock in `finally`. -/
def completeRefresh (r : RefreshSystem) (outcome : FetchOutcome) (now : ℤ) :
    RefreshSystem :=
  { vault := { (fetchNewSession r.vault outcome now).1 with isRefreshing := false }
    inFlight := r.inFlight - 1 }

/-- The interleaved steps of any number of concurrent `getCurrentKey`
callers. -/
inductive RefreshStep : RefreshSystem → RefreshSystem → Prop where
  | enter (r : RefreshSystem) (now : ℤ)
      (hkey : r.vault.sessionKey ≠ none)
      (hwin : ¬ now < r.vault.expiresAt - REFRESH_BUFFER_MS)
      (hlock : r.vault.isRefreshing = false) :
      RefreshStep r (enterRefresh r)
  | skipGuard (r : RefreshSystem) (now : ℤ)
      (h : r.vault.sessionKey = none ∨ now < r.vault.expiresAt - REFRESH_BUFFER_MS ∨
           r.vault.isRefreshing = true) :
      RefreshStep r r
  | complete (r : RefreshSystem) (outcome : FetchOutcome) (now : ℤ)
      (h : 1 ≤ r.inFlight) :
      RefreshStep r (completeRefresh r outcome now)

/-- Reachability from any quiescent state (no lock held, no fetch in
flight). -/
def RefreshReachable (r : RefreshSystem) : Prop :=
  ∃ r0 : RefreshSystem, r0.vault.isRefreshing = false ∧ r0.inFlight = 0 ∧
    Relation.ReflTransGen RefreshStep r0 r

/-- The lock invariant: the in-flight count is exactly the lock bit. -/
def refreshInv (r : RefreshSystem) : Prop :=
  r.inFlight = (if r.vault.isRefreshing then 1 else 0)

/-! ## Shared lemmas and concrete instances -/

/-- Bridge between the source's `Math.sqrt(variance) < 10` test and the
embedded `variance < 100` test. -/
theorem sqrt_lt_ten_iff_lt_hundred (q : ℚ) :
    Real.sqrt (q : ℝ) < 10 ↔ q < 100 := by
  rw [Real.sqrt_lt' (by norm_num : (0:ℝ) < 10)]
  norm_num
  exact_mod_cast Iff.rfl

/-- Every `RefreshStep` preserves the lock invariant. -/
theorem refreshInv_step {r r' : RefreshSystem} (h : RefreshStep r r')
    (hinv : refreshInv r) : refreshInv r' := by
  cases h with
  | enter now hkey hwin hlock =>
    unfold refreshInv at hinv ⊢
    rw [hlock] at hinv
    simp at hinv
    simp [enterRefresh, hinv]
  | skipGuard now hg => exact hinv
  | complete outcome now hf =>
    unfold refreshInv at hinv ⊢
    by_cases hb : r.vault.isRefreshing = true
    · rw [hb] at hinv
      simp at hinv
      simp [completeRefresh, hinv]
    · simp only [Bool.not_eq_true] at hb
      rw [hb] at hinv
      simp at hinv
      omega

/-- The lock invariant holds in every reachable state. -/
theorem refreshInv_reachable {r : RefreshSystem} (h : RefreshReachable r) :
    refreshInv r := by
  obtain ⟨r0, hlock, hfl, hsteps⟩ := h
  induction hsteps with
  | refl => unfold refreshInv; simp [hlock, hfl]
  | tail hstep hlast ih => exact refreshInv_step hlast ih

/-- One mouse event cannot push the trajectory buffer past 50 samples. -/
theorem mouseStep_traj_le {s : MouseState} (h : s.traj.length ≤ 50)
    (e : MouseEvent) : (mouseStep s e).traj.length ≤ 50 := by
  cases e with
  | move cx cy now =>
    simp only [mouseStep, handleMouseMove]
    split
    · simp only
      split
      · rename_i hlen
        simp
        omega
      · exact h
    · exact h
  | click => exact h
  | probe => simp [mouseStep, getMouseTrajectory]

/-- From the module-load state, the buffer never exceeds 50 samples. -/
theorem runMouseEvents_traj_le (es : List MouseEvent) :
    (runMouseEvents es).traj.length ≤ 50 := by
  unfold runMouseEvents
  have hgen : ∀ (s : MouseState), s.traj.length ≤ 50 →
      (es.foldl mouseStep s).traj.length ≤ 50 := by
    induction es with
    | nil => intro s hs; exact hs
    | cons e es ih => intro s hs; exact ih _ (mouseStep_traj_le hs e)
  exact hgen initialMouseState (by simp [initialMouseState])

/-- The bag of scenario 1 of the specification: audio probe fell back to
`err_no_offline_context`, platform and WebGL probes not run, a cached
navigation (which makes the overall score come out as 0). -/
def bagC1 : CollectedData :=
  { audio := some "err_no_offline_context"
    performance := some (Sum.inr { type := "navigate", transferSize := 0, loadTime := 0 }) }

/-- A bag in which the performance probe failed with its sentinel
`err_perf` and two more probes failed with theirs. -/
def bagC6 : CollectedData :=
  { canvas := some "err_canvas"
    webgl := some (Sum.inl "err_webgl")
    performance := some (Sum.inl "err_perf") }

/-- A bag whose platform probe returned its sentinel error string. -/
def bagC4 : CollectedData :=
  { platform := some (Sum.inl "err_platform"), audio := some "x" }

/-- A bag whose platform probe succeeded and whose WebGL probe was not
run. -/
def bagC4w : CollectedData :=
  { platform := some (Sum.inr
      { platform := "MacIntel", plugins := "", touchPoints := 0, clickCount := 0 })
    audio := some "fp" }

/-- A vault holding a session that has reached its refresh window. -/
def vaultC3 : VaultState :=
  { sessionKey := some "k", sessionToken := some "t",
    expiresAt := 1700000000000, isRefreshing := false }

/-- 20 points on the line `y = x`, sampled exactly every 100 ms. -/
def line20 : List (ℚ × ℚ × ℚ) :=
  [(0, 0, 0), (1, 1, 100), (2, 2, 200), (3, 3, 300), (4, 4, 400),
   (5, 5, 500), (6, 6, 600), (7, 7, 700), (8, 8, 800), (9, 9, 900),
   (10, 10, 1000), (11, 11, 1100), (12, 12, 1200), (13, 13, 1300),
   (14, 14, 1400), (15, 15, 1500), (16, 16, 1600), (17, 17, 1700),
   (18, 18, 1800), (19, 19, 1900)]

/-- Replace only the anomaly scan's `headless_chrome` signal of a bag. -/
def setHeadlessChrome (d : CollectedData) (b : Bool) : CollectedData :=
  { d with anomaly_scan := d.anomaly_scan.map fun a => { a with headless_chrome := b } }

/-! ## Claim theorems -/

/-- C1: with a non-null session key, the signed record is exactly the seven
components timestamp, nonce, uppercased method, path, serializedParams,
riskScore and rawFingerprintJson joined by the literal delimiter `||`; and
for method GET, path `/api/ping`, empty params, a bag scoring 0 with
fingerprint JSON `platform/renderer = N/A, audio = err_no_offline_context`,
timestamp 1700000000000 and nonce suffix `abcd1234`, serializedParams is
empty and the record is exactly the expected string. -/
theorem C1_signing_record :
    (∀ (k : String) (d : CollectedData) (w : Weights) (realUrl : String)
        (params : Option (List (String × JVal))) (method : String)
        (ts : ℕ) (nsuf : String) (tok : Option String),
      assessAndSign (some k) d w realUrl params method ts nsuf tok =
        some (assessAndSignCore d w realUrl params method ts nsuf tok) ∧
      (assessAndSignCore d w realUrl params method ts nsuf tok).dataToSign =
        joinPipes [toString ts, toString ts ++ "-" ++ nsuf, jsToUpperCase method,
          realUrl, computeSerializedParams (jsToUpperCase method) params,
          toString (riskScore d w), rawFingerprintJson d]) ∧
    riskScore bagC1 {} = 0 ∧
    (assessAndSignCore bagC1 {} "/api/ping" (some []) "GET"
        1700000000000 "abcd1234" (some "tok")).serializedParams = "" ∧
    (assessAndSignCore bagC1 {} "/api/ping" (some []) "GET"
        1700000000000 "abcd1234" (some "tok")).dataToSign =
      "1700000000000||1700000000000-abcd1234||GET||/api/ping||||0||\x7b\"platform\":\"N/A\",\"renderer\":\"N/A\",\"audio\":\"err_no_offline_context\"\x7d" := by
  have herr : errorCount bagC1 = 1 := by decide
  simp only [bagC1] at herr
  have hrs : riskScore bagC1 {} = 0 := by
    have h : scoreRaw bagC1 {} = -1 := by
      norm_num [scoreRaw, bagC1, anomalyWebdriver, anomalyWebdriverTampered,
        anomalyToStringTampered, anomalyStackTruthy, anomalyPermissionsDenied,
        trajectoryPoints, trajectoryAnalysis, isTouchDevice, clickCountQ,
        perfCacheBonus, jsNumOr, herr]
    rw [riskScore, h]
    norm_num [jsRound]
  refine ⟨fun k d w realUrl params method ts nsuf tok => ⟨rfl, rfl⟩, hrs, rfl, ?_⟩
  have hd : (assessAndSignCore bagC1 {} "/api/ping" (some []) "GET"
      1700000000000 "abcd1234" (some "tok")).dataToSign =
      joinPipes ["1700000000000", "1700000000000-abcd1234", "GET", "/api/ping",
        "", toString (riskScore bagC1 {}), rawFingerprintJson bagC1] := rfl
  rw [hd, hrs]
  rfl

/-- C2: for body methods the code emits `JSON.stringify(params)` in
insertion order, not the canonical sorted-keys JSON that the claim (and the
server contract) requires: on `{b:2, a:1}` the emitted string differs from
the canonical one produced by the repository's own (unused)
`_canonicalJsonStringify`; the empty-params cases do emit `"{}"`. -/
theorem C2_post_params_noncanonical :
    computeSerializedParams "POST" (some [("b", JVal.jNum 2), ("a", JVal.jNum 1)])
        = "\x7b\"b\":2,\"a\":1\x7d" ∧
    computeSerializedParams "POST" (some [("a", JVal.jNum 1), ("b", JVal.jNum 2)])
        = "\x7b\"a\":1,\"b\":2\x7d" ∧
    canonicalJsonStringify (JVal.jObj [("b", JVal.jNum 2), ("a", JVal.jNum 1)])
        = "\x7b\"a\":1,\"b\":2\x7d" ∧
    computeSerializedParams "POST" (some [("b", JVal.jNum 2), ("a", JVal.jNum 1)]) ≠
      canonicalJsonStringify (JVal.jObj [("b", JVal.jNum 2), ("a", JVal.jNum 1)]) ∧
    computeSerializedParams "POST" (some []) = "\x7b\x7d" ∧
    computeSerializedParams "POST" none = "\x7b\x7d" := by
  refine ⟨rfl, rfl, rfl, by decide, rfl, rfl⟩

/-- C3: a failed silent refresh inside `getCurrentKey` does not leave the
old session in place — `_fetchNewSession`'s catch branch clears the key,
token and expiry before rethrowing, so the caller receives `null` and
`getCurrentToken()` becomes `null`, contradicting the claim (and the
source's own comment) that the old key continues in use. -/
theorem C3_failed_refresh_clears_session :
    (getCurrentKey vaultC3 FetchOutcome.netErr 1700000000000).1 = none ∧
    getCurrentToken (getCurrentKey vaultC3 FetchOutcome.netErr 1700000000000).2 = none ∧
    (getCurrentKey vaultC3 FetchOutcome.netErr 1700000000000).2 =
      { sessionKey := none, sessionToken := none, expiresAt := 0,
        isRefreshing := false } := by
  refine ⟨?_, ?_, ?_⟩ <;> decide

/-- C4 counterexample: when the platform probe returned its sentinel error
string, the sentinel is truthy, so the code reads `.platform` off a string
(`undefined`) and `JSON.stringify` drops the member entirely — the output
is not the claimed `"N/A"` shape. -/
theorem C4_sentinel_platform_drops_member :
    rawFingerprintJson bagC4 = "\x7b\"renderer\":\"N/A\",\"audio\":\"x\"\x7d" ∧
    rawFingerprintJson bagC4 ≠
      "\x7b\"platform\":\"N/A\",\"renderer\":\"N/A\",\"audio\":\"x\"\x7d" := by
  exact ⟨rfl, by decide⟩

/-- C4 amended: the fingerprint JSON consists, in the insertion order
platform, renderer, audio, of: the platform member — the probe's
`.platform` field for an object result, `"N/A"` for an absent probe, and
omitted entirely for a sentinel error string — then the renderer member
likewise from the WebGL result, then the audio member verbatim. -/
theorem C4_fingerprint_members (d : CollectedData) (a : String)
    (ha : d.audio = some a) :
    rawFingerprintJson d = "\x7b" ++ joinComma (
      (match d.platform with
       | none => [jsonQuote "platform" ++ ":" ++ jsonQuote "N/A"]
       | some (Sum.inl _) => []
       | some (Sum.inr p) => [jsonQuote "platform" ++ ":" ++ jsonQuote p.platform]) ++
      (match d.webgl with
       | none => [jsonQuote "renderer" ++ ":" ++ jsonQuote "N/A"]
       | some (Sum.inl _) => []
       | some (Sum.inr w) => [jsonQuote "renderer" ++ ":" ++ jsonQuote w.renderer]) ++
      [jsonQuote "audio" ++ ":" ++ jsonQuote a]) ++ "\x7d" := by
  obtain ⟨c, wg, au, pf, sc, perf, mt, an⟩ := d
  simp only at ha
  subst ha
  rcases pf with _ | (e | p) <;> rcases wg with _ | (e2 | w) <;> rfl

/-- C4 witness: the amended description applied to a bag with a successful
platform probe and no WebGL probe. -/
theorem C4_fingerprint_members_witness :
    bagC4w.audio = some "fp" ∧
    rawFingerprintJson bagC4w =
      "\x7b\"platform\":\"MacIntel\",\"renderer\":\"N/A\",\"audio\":\"fp\"\x7d" :=
  ⟨rfl, (C4_fingerprint_members bagC4w "fp" rfl).trans (by rfl)⟩

/-- C5: in every state reachable by interleaved `getCurrentKey` callers
from a quiescent state, at most one refresh fetch is in flight (the
`isRefreshing` guard is checked atomically before a fetch starts), and the
completion of a refresh attempt — fetch succeeded or failed — always
leaves `isRefreshing` false. -/
theorem C5_refresh_lock :
    (∀ r : RefreshSystem, RefreshReachable r → r.inFlight ≤ 1) ∧
    (∀ (r : RefreshSystem) (outcome : FetchOutcome) (now : ℤ),
      (completeRefresh r outcome now).vault.isRefreshing = false) := by
  constructor
  · intro r h
    have hi := refreshInv_reachable h
    unfold refreshInv at hi
    rw [hi]
    split <;> omega
  · intro r outcome now
    rfl

/-- C5 witness: the lock bound applied to a concrete reachable state — the
quiescent state after one refresh was entered and completed with a network
failure. -/
theorem C5_refresh_lock_witness :
    (completeRefresh (enterRefresh ⟨vaultC3, 0⟩) FetchOutcome.netErr
        1700000000000).inFlight ≤ 1 := by
  have h0 : RefreshReachable ⟨vaultC3, 0⟩ :=
    ⟨⟨vaultC3, 0⟩, rfl, rfl, Relation.ReflTransGen.refl⟩
  have h1 : RefreshReachable (completeRefresh (enterRefresh ⟨vaultC3, 0⟩)
      FetchOutcome.netErr 1700000000000) := by
    obtain ⟨r0, ha, hb, hsteps⟩ := h0
    have s1 : RefreshStep ⟨vaultC3, 0⟩ (enterRefresh ⟨vaultC3, 0⟩) :=
      RefreshStep.enter _ 1700000000000 (by decide) (by decide) rfl
    have s2 : RefreshStep (enterRefresh ⟨vaultC3, 0⟩)
        (completeRefresh (enterRefresh ⟨vaultC3, 0⟩) FetchOutcome.netErr
          1700000000000) :=
      RefreshStep.complete _ FetchOutcome.netErr 1700000000000 (by decide)
    exact ⟨r0, ha, hb, (hsteps.tail s1).tail s2⟩
  exact C5_refresh_lock.1 _ h1

/-- C6: the scorer's sentinel list contains `err_no_perf`, which no probe
produces, and omits `err_perf`, which the performance probe does produce —
so on a bag with sentinels `err_canvas`, `err_webgl`, `err_perf` the code
counts only 2 errors and adds no penalty (score 4), while the claim's
closed set counts 3 and would add 6. -/
theorem C6_err_perf_sentinel_mismatch :
    ("err_perf" ∈ probeFabricSentinels ∧ "err_perf" ∉ fingerprintErrors ∧
     "err_no_perf" ∈ fingerprintErrors ∧ "err_no_perf" ∉ probeFabricSentinels) ∧
    errorCount bagC6 = 2 ∧
    (topLevelStringValues bagC6).countP (fun v => probeFabricSentinels.contains v) = 3 ∧
    riskScore bagC6 {} = 4 := by
  refine ⟨by decide, by decide, by decide, ?_⟩
  have herr : errorCount bagC6 = 2 := by decide
  simp only [bagC6] at herr
  have h : scoreRaw bagC6 {} = 4 := by
    norm_num [scoreRaw, bagC6, anomalyWebdriver, anomalyWebdriverTampered,
      anomalyToStringTampered, anomalyStackTruthy, anomalyPermissionsDenied,
      trajectoryPoints, trajectoryAnalysis, isTouchDevice, clickCountQ,
      perfCacheBonus, jsNumOr, herr]
  rw [riskScore, h]
  norm_num [jsRound]

/-- C7: for every bag and weight map the risk score is an integer in
[0, 100]: the raw sum is clamped below at 0, rounded, and clamped above at
100. -/
theorem C7_riskScore_in_range (d : CollectedData) (w : Weights) :
    0 ≤ riskScore d w ∧ riskScore d w ≤ 100 := by
  constructor
  · apply le_min
    · apply Int.le_floor.mpr
      push_cast
      have h0 : (0:ℚ) ≤ max 0 (scoreRaw d w) := le_max_left 0 _
      linarith
    · norm_num
  · exact min_le_right _ _

/-- C8: trajectories of fewer than 10 points get the zero analysis; for at
least 10 points the analysis is exactly 0.8 for σ of the intervals below
10 ms (stated via the real square root of the population variance) plus
1.0 with the straight-line flag for slope consistency above 0.8, clamped
to at most 1; the straight-line flag holds iff the consistent-pair ratio
over (n−1) segments exceeds 0.8; the score always lies in [0, 1]; and the
20-point line sampled every 100 ms yields flag true with score 1. -/
theorem C8_trajectory_analysis :
    (∀ traj : List (ℚ × ℚ × ℚ), traj.length < 10 →
       analyzeMouseTrajectory traj = ⟨0, false⟩) ∧
    (∀ traj : List (ℚ × ℚ × ℚ), 10 ≤ traj.length →
       analyzeMouseTrajectory traj =
         { regularity_score :=
             min ((if Real.sqrt ((intervalVariance traj : ℚ) : ℝ) < 10
                   then (0.8 : ℚ) else 0)
               + (if straightLineCond traj then 1 else 0)) 1
           is_straight_line := straightLineCond traj }) ∧
    (∀ traj : List (ℚ × ℚ × ℚ),
       straightLineCond traj = true ↔
         (consistentSlopesCount traj : ℚ) / ((traj.length : ℚ) - 1) > 0.8) ∧
    (∀ traj : List (ℚ × ℚ × ℚ),
       0 ≤ (analyzeMouseTrajectory traj).regularity_score ∧
       (analyzeMouseTrajectory traj).regularity_score ≤ 1) ∧
    analyzeMouseTrajectory line20 = ⟨1, true⟩ := by
  refine ⟨?_, ?_, ?_, ?_, ?_⟩
  · intro traj h
    unfold analyzeMouseTrajectory
    rw [if_pos h]
  · intro traj h
    unfold analyzeMouseTrajectory
    rw [if_neg (by omega)]
    have hiff : (if Real.sqrt ((intervalVariance traj : ℚ) : ℝ) < 10
          then (0.8:ℚ) else 0)
        = (if intervalVariance traj < 100 then (0.8:ℚ) else 0) :=
      if_congr (sqrt_lt_ten_iff_lt_hundred _) rfl rfl
    rw [hiff]
  · intro traj
    unfold straightLineCond
    exact decide_eq_true_iff
  · intro traj
    unfold analyzeMouseTrajectory
    split
    · exact ⟨le_refl 0, by norm_num⟩
    · simp only
      constructor
      · apply le_min _ (by norm_num)
        have h1 : (0:ℚ) ≤ if intervalVariance traj < 100 then (0.8:ℚ) else 0 := by
          split <;> norm_num
        have h2 : (0:ℚ) ≤ if straightLineCond traj then (1:ℚ) else 0 := by
          split <;> norm_num
        linarith
      · exact min_le_right _ 1
  · have hvar : intervalVariance line20 = 0 := by
      norm_num [intervalVariance, intervalsOf, line20]
    have hstraight : straightLineCond line20 = true := by
      norm_num [straightLineCond, consistentSlopesCount, slopeLoop, line20]
    have hlen : ¬ (line20.length < 10) := by decide
    rw [analyzeMouseTrajectory, if_neg hlen]
    simp only [hstraight, hvar, if_true]
    norm_num

/-- C8 witness: the two quantified parts applied at concrete trajectories
(the empty one and the 20-point line). -/
theorem C8_trajectory_analysis_witness :
    analyzeMouseTrajectory [] = ⟨0, false⟩ ∧
    analyzeMouseTrajectory line20 =
      { regularity_score :=
          min ((if Real.sqrt ((intervalVariance line20 : ℚ) : ℝ) < 10
                then (0.8 : ℚ) else 0)
            + (if straightLineCond line20 then 1 else 0)) 1
        is_straight_line := straightLineCond line20 } :=
  ⟨C8_trajectory_analysis.1 [] (by decide),
   C8_trajectory_analysis.2.1 line20 (by decide)⟩

/-- C9 counterexample: the throttle is strictly greater-than — after a
sample accepted at t = 200, a mousemove at t = 300 (exactly 100 ms later,
buffer far from full) is NOT appended, refuting the claimed
"at least 100 ms" acceptance condition. -/
theorem C9_exact_100ms_not_appended :
    (runMouseEvents [MouseEvent.move 0 0 200]).traj
        = [((0:ℚ), (0:ℚ), (200:ℚ))] ∧
    (runMouseEvents [MouseEvent.move 0 0 200, MouseEvent.move 5 5 300]).traj
        = [((0:ℚ), (0:ℚ), (200:ℚ))] ∧
    (300 : ℚ) - 200 ≥ 100 ∧
    ([((0:ℚ), (0:ℚ), (200:ℚ))] : List (ℚ × ℚ × ℚ)).length < 50 := by
  refine ⟨?_, ?_, by norm_num, by norm_num⟩ <;>
    norm_num [runMouseEvents, mouseStep, handleMouseMove, initialMouseState]

/-- C9 amended: the trajectory buffer never exceeds 50 samples in any
reachable state; a mousemove sample is appended iff strictly more than
100 ms have elapsed since the last throttle-passing mousemove (whose
timestamp is recorded even when the buffer is full and nothing is
appended) and the buffer holds fewer than 50 samples; and each run of the
trajectory probe returns the buffer as its points and leaves it empty. -/
theorem C9_buffer_invariants :
    (∀ es : List MouseEvent, (runMouseEvents es).traj.length ≤ 50) ∧
    (∀ (s : MouseState) (cx cy now : ℚ),
       (handleMouseMove s cx cy now).traj =
         if now - s.last.t > 100 ∧ s.traj.length < 50
         then s.traj ++ [(cx, cy, now)] else s.traj) ∧
    (∀ s : MouseState,
       (getMouseTrajectory s).1.points = s.traj ∧
       (getMouseTrajectory s).2.traj = []) := by
  refine ⟨runMouseEvents_traj_le, ?_, fun s => ⟨rfl, rfl⟩⟩
  intro s cx cy now
  by_cases h1 : now - s.last.t > 100 <;> by_cases h2 : s.traj.length < 50 <;>
    simp [handleMouseMove, h1, h2]

/-- C10: the risk score never reads the anomaly scan's `headless_chrome`
signal — two bags identical except for that field score identically. -/
theorem C10_headless_chrome_noninterference (d : CollectedData) (w : Weights)
    (b : Bool) : riskScore (setHeadlessChrome d b) w = riskScore d w := by
  cases d with
  | mk canvas webgl audio platform screen performance mouse_trajectory anomaly_scan =>
    cases anomaly_scan with
    | none => rfl
    | some a => cases a; rfl
